import Mathlib

/-!
Shallow embedding of the SoundCloud re-listen generator
(`src/generate_relisten.py`, HTML-embed output target, and
`src/frontend/scripts/generate_relisten.py`, JSON-file output target).

Python strings are modelled as `List Char`; a JSON field that may be
absent from a dict is an `Option`, and a present-but-null value is a
further `Option` layer (`some none`).  HTTP traffic is external, so each
network response is a parameter of the function that consumes it.
-/

namespace Relisten

/-- A JSON scalar value, as far as Python truthiness is concerned.
Used for the `streamable` field, whose only consumption is
`track.get('streamable', False)` in a boolean context. -/
inductive JVal where
  | null
  | bool (b : Bool)
  | num (n : Int)
  | str (s : List Char)
deriving DecidableEq

/-- Python truthiness of a JSON scalar. -/
def JVal.truthy : JVal → Bool
  | .null => false
  | .bool b => b
  | .num n => n != 0
  | .str s => !s.isEmpty

/-- Fuel-indexed worker for Python `str.replace`: non-overlapping,
left-to-right, replace-all.  The fuel is the length of the remaining
string, so the `0, s => s` arm is never reached from `pyReplace`. -/
def pyReplaceAux (p r : List Char) : Nat → List Char → List Char
  | _, [] => []
  | 0, s => s
  | fuel + 1, c :: rest =>
    if p ≠ [] ∧ p.isPrefixOf (c :: rest) then
      r ++ pyReplaceAux p r fuel ((c :: rest).drop p.length)
    else
      c :: pyReplaceAux p r fuel rest

/-- Python `s.replace(p, r)` for a nonempty pattern `p` (the scripts only
ever call `replace` with nonempty literal patterns). -/
def pyReplace (p r s : List Char) : List Char :=
  pyReplaceAux p r s.length s

/-- One character of Python `html.escape` (stdlib, `quote=True` default):
`&`, `<`, `>`, `"` and the apostrophe become entities, everything else is
kept. -/
def htmlEscapeChar (c : Char) : List Char :=
  if c = ('&') then ("&amp;").data
  else if c = ('<') then ("&lt;").data
  else if c = ('>') then ("&gt;").data
  else if c = ('"') then ("&quot;").data
  else if c.toNat = 39 then ("&#x27;").data
  else [c]

/-- Python `html.escape` (the successive stdlib replaces, `&` first, are
equivalent to this character-wise map). -/
def htmlEscape (s : List Char) : List Char :=
  (s.map htmlEscapeChar).flatten

/-- `'-large.jpg'`, first artwork suffix rewritten by `format_track_data`. -/
def sufLarge : List Char := ("-large.jpg").data

/-- `'-crop.jpg'`, second artwork suffix rewritten by `format_track_data`. -/
def sufCrop : List Char := ("-crop.jpg").data

/-- `'-t300x300.jpg'`, third artwork suffix rewritten by `format_track_data`. -/
def sufT300 : List Char := ("-t300x300.jpg").data

/-- `'-t500x500.jpg'`, the replacement suffix. -/
def sufT500 : List Char := ("-t500x500.jpg").data

/-- Placeholder artwork path of the JSON-file-target script
(`src/frontend/scripts/generate_relisten.py`): `'/moafunk.png'`. -/
def phJson : List Char := ("/moafunk.png").data

/-- Placeholder artwork path of the HTML-embed-target script
(`src/generate_relisten.py`): `'./moafunk.png'`. -/
def phHtml : List Char := ("./moafunk.png").data

/-- A raw track record from the API, restricted to the fields the scripts
consume.  `id`, `title`, `created_at`, `duration` and `permalink_url` are
accessed with `track[...]` (no default), so they are total here; the
remaining fields are accessed with `track.get(...)` and may be absent
(`none`) or present-but-null (`some none`). -/
structure RawTrack where
  id : Int
  title : List Char
  created_at : List Char
  duration : Int
  permalink_url : List Char
  artwork_url : Option (Option (List Char)) := none
  stream_url : Option (Option (List Char)) := none
  description : Option (Option (List Char)) := none
  streamable : Option JVal := none
  sharing : Option (Option (List Char)) := none
deriving DecidableEq

/-- A normalized track record, the dict built by `format_track_data`.
`stream_url` is `Option` because `track.get('stream_url', '#')` returns
Python `None` when the raw dict holds an explicit null. -/
structure FormattedTrack where
  id : Int
  title : List Char
  artwork_url : List Char
  created_at : List Char
  duration : Int
  permalink_url : List Char
  stream_url : Option (List Char)
  description : List Char
deriving DecidableEq

/-- Loop body of `format_track_data` in
`src/frontend/scripts/generate_relisten.py` (JSON-file output target):
no HTML escaping, placeholder `'/moafunk.png'`. -/
def format_track_json (track : RawTrack) : FormattedTrack :=
  let artwork_url0 : Option (List Char) := track.artwork_url.getD (some phJson)
  let artwork_url1 : Option (List Char) :=
    match artwork_url0 with
    | none => none
    | some s =>
      if s ≠ [] ∧ s ≠ phJson then
        some (pyReplace sufT300 sufT500 (pyReplace sufCrop sufT500 (pyReplace sufLarge sufT500 s)))
      else some s
  { id := track.id
    title := track.title
    artwork_url :=
      match artwork_url1 with
      | none => phJson
      | some s => if s.isEmpty then phJson else s
    created_at := track.created_at
    duration := track.duration
    permalink_url := track.permalink_url
    stream_url := track.stream_url.getD (some (("#").data))
    description :=
      match track.description.getD (some []) with
      | none => []
      | some d => if d.isEmpty then [] else d.take 200 ++ ("...").data }

/-- Loop body of `format_track_data` in `src/generate_relisten.py`
(HTML-embed output target): `title` and `description` are passed through
`html.escape`, placeholder `'./moafunk.png'`. -/
def format_track_html (track : RawTrack) : FormattedTrack :=
  let artwork_url0 : Option (List Char) := track.artwork_url.getD (some phHtml)
  let artwork_url1 : Option (List Char) :=
    match artwork_url0 with
    | none => none
    | some s =>
      if s ≠ [] ∧ s ≠ phHtml then
        some (pyReplace sufT300 sufT500 (pyReplace sufCrop sufT500 (pyReplace sufLarge sufT500 s)))
      else some s
  { id := track.id
    title := htmlEscape track.title
    artwork_url :=
      match artwork_url1 with
      | none => phHtml
      | some s => if s.isEmpty then phHtml else s
    created_at := track.created_at
    duration := track.duration
    permalink_url := track.permalink_url
    stream_url := track.stream_url.getD (some (("#").data))
    description :=
      match track.description.getD (some []) with
      | none => []
      | some d => htmlEscape (if d.isEmpty then [] else d.take 200 ++ ("...").data) }

/-- `format_track_data` of the JSON-file-target script over a whole list
(the Python loop appends one formatted dict per raw track, in order). -/
def format_track_data_json : List RawTrack → List FormattedTrack
  | [] => []
  | t :: ts => format_track_json t :: format_track_data_json ts

/-- `format_track_data` of the HTML-embed-target script over a whole list. -/
def format_track_data_html : List RawTrack → List FormattedTrack
  | [] => []
  | t :: ts => format_track_html t :: format_track_data_html ts

/-- `track.get('streamable', False)` used as a boolean:
the first filter tier of `fetch_soundcloud_tracks`. -/
def isStreamable (t : RawTrack) : Bool :=
  (t.streamable.getD (JVal.bool false)).truthy

/-- `track.get('sharing') == 'public'`:
the second filter tier of `fetch_soundcloud_tracks`. -/
def isPublic (t : RawTrack) : Bool :=
  decide (t.sharing.getD none = some (("public").data))

/-- Filter stage at the end of `fetch_soundcloud_tracks` (identical in
both scripts): streamable tracks, else public tracks, else the first 10
raw tracks. -/
def filter_tracks (tracks : List RawTrack) : List RawTrack :=
  let streamable_tracks := tracks.filter isStreamable
  let streamable_tracks2 :=
    if streamable_tracks.isEmpty then tracks.filter isPublic else streamable_tracks
  if streamable_tracks2.isEmpty then tracks.take 10 else streamable_tracks2

/-- The token endpoint's HTTP response, restricted to what
`get_access_token` consumes: the status code, the body text (printed on
failure), and the JSON body's `access_token` field (absent, null, or a
string). -/
structure TokenResponse where
  status_code : Nat
  text : List Char
  access_token : Option (Option (List Char))

/-- `get_access_token` (identical control flow in both scripts): raise on
non-200 with a message carrying the status code, otherwise return
`response.json().get('access_token')`.  The `print` diagnostics are not
modelled; the raised `Exception`'s message is the error value. -/
def get_access_token (resp : TokenResponse) : Except (List Char) (Option (List Char)) :=
  if resp.status_code ≠ 200 then
    Except.error (("Failed to get access token: ").data ++ (Nat.repr resp.status_code).data)
  else
    Except.ok (resp.access_token.getD none)

/-- The resolve endpoint's HTTP response, restricted to what
`fetch_soundcloud_tracks` consumes: the status code and the JSON body's
`id` field (absent, null, or a number). -/
structure ResolveResponse where
  status_code : Nat
  id : Option (Option Int)

/-- Python `str(...)` of `user_data.get('id')`: `None` prints as
`"None"`, a number prints in decimal. -/
def pyStrOptInt : Option Int → List Char
  | none => ("None").data
  | some n => (Int.repr n).data

/-- Python truthiness of the access token (`if access_token:`):
`None` and the empty string are falsy. -/
def tokenTruthy : Option (List Char) → Bool
  | none => false
  | some s => !s.isEmpty

/-- The tracks-listing URL built by `fetch_soundcloud_tracks`: on resolve
status 200 it interpolates `user_data.get('id')` (even when that is
`None`), otherwise it falls back to the raw username; with a truthy token
the auth is a header, otherwise a `client_id` query parameter. -/
def tracks_url (access_token : Option (List Char)) (client_id username : List Char)
    (resolve : ResolveResponse) : List Char :=
  if resolve.status_code = 200 then
    let user_id : Option Int := resolve.id.getD none
    if tokenTruthy access_token then
      ("https://api.soundcloud.com/users/").data ++ pyStrOptInt user_id
        ++ ("/tracks?limit=50").data
    else
      ("https://api.soundcloud.com/users/").data ++ pyStrOptInt user_id
        ++ ("/tracks?client_id=").data ++ client_id ++ ("&limit=50").data
  else
    if tokenTruthy access_token then
      ("https://api.soundcloud.com/users/").data ++ username
        ++ ("/tracks?limit=50").data
    else
      ("https://api.soundcloud.com/users/").data ++ username
        ++ ("/tracks?client_id=").data ++ client_id ++ ("&limit=50").data

/-- `fetch_soundcloud_tracks` with the network modelled as parameters:
the token endpoint response, the resolve response (which only influences
the URL of the tracks GET, via `tracks_url`), and the tracks endpoint as
a map from the requested URL to a status code and a parsed body.  A
non-200 token response propagates `get_access_token`'s exception; a
non-200 tracks response raises; the resolve status never raises. -/
def fetch_soundcloud_tracks (tokenResp : TokenResponse) (resolve : ResolveResponse)
    (client_id username : List Char) (tracksGet : List Char → Nat × List RawTrack) :
    Except (List Char) (List RawTrack) :=
  match get_access_token tokenResp with
  | Except.error e => Except.error e
  | Except.ok access_token =>
    let url := tracks_url access_token client_id username resolve
    let resp := tracksGet url
    if resp.1 ≠ 200 then
      Except.error (("Failed to fetch tracks: ").data ++ (Nat.repr resp.1).data)
    else
      Except.ok (filter_tracks resp.2)

/-! ### Lemmas about `pyReplace` -/

/-- `pyReplaceAux` on the empty string. -/
theorem pyReplaceAux_nil (p r : List Char) (fuel : Nat) :
    pyReplaceAux p r fuel [] = [] := by
  cases fuel <;> rfl

/-- Unfolding of `pyReplaceAux` at a cons with positive fuel. -/
theorem pyReplaceAux_cons (p r : List Char) (fuel : Nat) (c : Char) (rest : List Char) :
    pyReplaceAux p r (fuel + 1) (c :: rest) =
      if p ≠ [] ∧ p.isPrefixOf (c :: rest) then
        r ++ pyReplaceAux p r fuel ((c :: rest).drop p.length)
      else
        c :: pyReplaceAux p r fuel rest := rfl

/-- When the pattern matches at no position of `s`, replacement is the
identity. -/
theorem pyReplaceAux_no_match (p r : List Char) :
    ∀ (fuel : Nat) (s : List Char), s.length ≤ fuel →
      (∀ i, i < s.length → ¬ p.isPrefixOf (s.drop i) = true) →
      pyReplaceAux p r fuel s = s := by
  intro fuel
  induction fuel with
  | zero =>
    intro s hs _
    have : s = [] := List.eq_nil_of_length_eq_zero (Nat.le_zero.mp hs)
    rw [this, pyReplaceAux_nil]
  | succ n ih =>
    intro s hs hno
    cases s with
    | nil => exact pyReplaceAux_nil p r _
    | cons c rest =>
      rw [pyReplaceAux_cons, if_neg]
      · have := ih rest (by simpa using Nat.lt_succ_iff.mp (Nat.lt_of_lt_of_le (by simp) hs)) ?_
        · rw [this]
        · intro i hi
          have := hno (i + 1) (by simpa using Nat.succ_lt_succ hi)
          simpa [List.drop_succ_cons] using this
      · intro h
        exact hno 0 (by simp) (by simpa using h.2)

/-- If the string ends with the (nonempty, border-free) pattern, the
result of replace-all ends with the replacement: no earlier match can
overlap the final occurrence of the pattern. -/
theorem pyReplaceAux_ends_with (p r : List Char) (hp : p ≠ [])
    (hb : ∀ k, k < p.length → 0 < k → p.take k ≠ p.drop (p.length - k)) :
    ∀ (fuel : Nat) (u : List Char), (u ++ p).length ≤ fuel →
      ∃ w, pyReplaceAux p r fuel (u ++ p) = w ++ r := by
  intro fuel
  induction fuel with
  | zero =>
    intro u hu
    exfalso
    have h0 : u ++ p = [] := List.eq_nil_of_length_eq_zero (Nat.le_zero.mp hu)
    exact hp (List.append_eq_nil.mp h0).2
  | succ n ih =>
    intro u hu
    have hpl : 0 < p.length := List.length_pos.mpr hp
    cases u with
    | nil =>
      refine ⟨[], ?_⟩
      rw [List.nil_append, List.nil_append]
      obtain ⟨c, ps, rfl⟩ := List.exists_cons_of_ne_nil hp
      rw [pyReplaceAux_cons,
        if_pos ⟨hp, List.isPrefixOf_iff_prefix.mpr (List.prefix_refl _)⟩]
      rw [List.drop_length, pyReplaceAux_nil, List.append_nil]
    | cons c u' =>
      rw [List.cons_append, pyReplaceAux_cons]
      by_cases hmatch : p ≠ [] ∧ p.isPrefixOf (c :: (u' ++ p))
      · rw [if_pos hmatch]
        rcases le_or_lt p.length (c :: u').length with hle | hlt
        · have hdrop : (c :: (u' ++ p)).drop p.length = (c :: u').drop p.length ++ p := by
            rw [← List.cons_append, List.drop_append_eq_append_drop,
              Nat.sub_eq_zero_of_le hle, List.drop_zero]
          rw [hdrop]
          have hfit : ((c :: u').drop p.length ++ p).length ≤ n := by
            simp only [List.length_cons, List.length_append] at hu
            simp only [List.length_append, List.length_drop, List.length_cons]
            omega
          obtain ⟨w, hw⟩ := ih ((c :: u').drop p.length) hfit
          exact ⟨r ++ w, by rw [hw, List.append_assoc]⟩
        · exfalso
          have hpre : p <+: ((c :: u') ++ p) := by
            rw [List.cons_append]
            exact List.isPrefixOf_iff_prefix.mp hmatch.2
          obtain ⟨t, ht⟩ := hpre
          have hdrop := congrArg (List.drop (c :: u').length) ht
          rw [List.drop_append_eq_append_drop, List.drop_append_eq_append_drop,
            Nat.sub_eq_zero_of_le (Nat.le_of_lt hlt), List.drop_zero,
            List.drop_length, Nat.sub_self, List.drop_zero, List.nil_append] at hdrop
          -- hdrop : p.drop (c :: u').length ++ t = p
          have hlen : (p.drop (c :: u').length).length = p.length - (c :: u').length := by
            simp
          have htake := congrArg (List.take (p.length - (c :: u').length)) hdrop
          rw [List.take_left' hlen] at htake
          -- htake : p.drop (c :: u').length = p.take (p.length - (c :: u').length)
          have hcl : 0 < (c :: u').length := by simp
          refine hb (p.length - (c :: u').length) (by omega) (by omega) ?_
          rw [← htake]
          have heq : p.length - (p.length - (c :: u').length) = (c :: u').length := by
            omega
          rw [heq]
      · rw [if_neg hmatch]
        have hle : (u' ++ p).length ≤ n := by
          simp only [List.length_cons, List.length_append] at hu
          simp only [List.length_append]
          omega
        obtain ⟨w, hw⟩ := ih u' hle
        exact ⟨c :: w, by rw [hw, List.cons_append]⟩

/-- If no suffix of the pattern is a prefix of `r` and the pattern
matches nowhere inside `r`, then replace-all on `w ++ r` leaves the
trailing `r` intact (whatever the replacement text is). -/
theorem pyReplaceAux_preserves_suffix (p rep r : List Char) (hp : p ≠ [])
    (h1 : ∀ k, k < p.length → 0 < k → ¬ (p.drop (p.length - k)).isPrefixOf r = true)
    (h2 : ∀ i, i < r.length → ¬ p.isPrefixOf (r.drop i) = true) :
    ∀ (fuel : Nat) (w : List Char), (w ++ r).length ≤ fuel →
      ∃ z, pyReplaceAux p rep fuel (w ++ r) = z ++ r := by
  intro fuel
  induction fuel with
  | zero =>
    intro w hw
    have h0 : w ++ r = [] := List.eq_nil_of_length_eq_zero (Nat.le_zero.mp hw)
    obtain ⟨hw1, hw2⟩ := List.append_eq_nil.mp h0
    exact ⟨[], by simp [hw1, hw2, pyReplaceAux_nil]⟩
  | succ n ih =>
    intro w hw
    cases w with
    | nil =>
      exact ⟨[], pyReplaceAux_no_match p rep (n + 1) r (by simpa using hw) h2⟩
    | cons c w' =>
      rw [List.cons_append, pyReplaceAux_cons]
      by_cases hmatch : p ≠ [] ∧ p.isPrefixOf (c :: (w' ++ r))
      · rw [if_pos hmatch]
        rcases le_or_lt p.length (c :: w').length with hle | hlt
        · have hdrop : (c :: (w' ++ r)).drop p.length = (c :: w').drop p.length ++ r := by
            rw [← List.cons_append, List.drop_append_eq_append_drop,
              Nat.sub_eq_zero_of_le hle, List.drop_zero]
          rw [hdrop]
          have hpl : 0 < p.length := List.length_pos.mpr hp
          have hfit : ((c :: w').drop p.length ++ r).length ≤ n := by
            simp only [List.length_cons, List.length_append] at hw
            simp only [List.length_append, List.length_drop, List.length_cons]
            omega
          obtain ⟨z, hz⟩ := ih ((c :: w').drop p.length) hfit
          exact ⟨rep ++ z, by rw [hz, List.append_assoc]⟩
        · exfalso
          have hpre : p <+: ((c :: w') ++ r) := by
            rw [List.cons_append]
            exact List.isPrefixOf_iff_prefix.mp hmatch.2
          obtain ⟨t, ht⟩ := hpre
          have hdrop := congrArg (List.drop (c :: w').length) ht
          rw [List.drop_append_eq_append_drop, List.drop_append_eq_append_drop,
            Nat.sub_eq_zero_of_le (Nat.le_of_lt hlt), List.drop_zero,
            List.drop_length, Nat.sub_self, List.drop_zero, List.nil_append] at hdrop
          -- hdrop : p.drop (c :: w').length ++ t = r
          have hcl : 0 < (c :: w').length := by simp
          refine h1 (p.length - (c :: w').length) (by omega) (by omega) ?_
          refine List.isPrefixOf_iff_prefix.mpr ⟨t, ?_⟩
          have heq : p.length - (p.length - (c :: w').length) = (c :: w').length := by
            omega
          rw [heq]
          exact hdrop
      · rw [if_neg hmatch]
        have hle : (w' ++ r).length ≤ n := by
          simp only [List.length_cons, List.length_append] at hw
          simp only [List.length_append]
          omega
        obtain ⟨z, hz⟩ := ih w' hle
        exact ⟨c :: z, by rw [hz, List.cons_append]⟩

/-- `pyReplace` version of `pyReplaceAux_ends_with`. -/
theorem pyReplace_ends_with (p r : List Char) (hp : p ≠ [])
    (hb : ∀ k, k < p.length → 0 < k → p.take k ≠ p.drop (p.length - k))
    (u : List Char) : ∃ w, pyReplace p r (u ++ p) = w ++ r :=
  pyReplaceAux_ends_with p r hp hb (u ++ p).length u le_rfl

/-- `pyReplace` version of `pyReplaceAux_preserves_suffix`. -/
theorem pyReplace_preserves_suffix (p rep r : List Char) (hp : p ≠ [])
    (h1 : ∀ k, k < p.length → 0 < k → ¬ (p.drop (p.length - k)).isPrefixOf r = true)
    (h2 : ∀ i, i < r.length → ¬ p.isPrefixOf (r.drop i) = true)
    (w : List Char) : ∃ z, pyReplace p rep (w ++ r) = z ++ r :=
  pyReplaceAux_preserves_suffix p rep r hp h1 h2 (w ++ r).length w le_rfl

/-- Replacement with a nonempty replacement text never empties a
nonempty string. -/
theorem pyReplace_ne_nil (p r s : List Char) (hr : r ≠ []) (hs : s ≠ []) :
    pyReplace p r s ≠ [] := by
  obtain ⟨c, rest, rfl⟩ := List.exists_cons_of_ne_nil hs
  unfold pyReplace
  simp only [List.length_cons]
  rw [pyReplaceAux_cons]
  split
  · intro h
    exact hr (List.append_eq_nil.mp h).1
  · simp

/-- `p` has no nontrivial border (no proper nonempty prefix that is also
a suffix), so a match of `p` cannot overlap a later occurrence of `p`. -/
abbrev BorderFree (p : List Char) : Prop :=
  ∀ k, k < p.length → 0 < k → p.take k ≠ p.drop (p.length - k)

/-- No match of `p` can reach into a trailing occurrence of `r`: no
nonempty proper suffix of `p` is a prefix of `r`, and `p` matches
nowhere inside `r`. -/
abbrev CannotTouch (p r : List Char) : Prop :=
  (∀ k, k < p.length → 0 < k → ¬ (p.drop (p.length - k)).isPrefixOf r = true) ∧
  (∀ i, i < r.length → ¬ p.isPrefixOf (r.drop i) = true)

theorem borderFree_sufLarge : BorderFree sufLarge := by decide

theorem borderFree_sufCrop : BorderFree sufCrop := by decide

theorem borderFree_sufT300 : BorderFree sufT300 := by decide

theorem cannotTouch_large_crop : CannotTouch sufLarge sufCrop := by decide

theorem cannotTouch_large_t300 : CannotTouch sufLarge sufT300 := by decide

theorem cannotTouch_crop_t300 : CannotTouch sufCrop sufT300 := by decide

theorem cannotTouch_crop_t500 : CannotTouch sufCrop sufT500 := by decide

theorem cannotTouch_t300_t500 : CannotTouch sufT300 sufT500 := by decide

/-- The three successive artwork-suffix replaces of `format_track_data`:
any input ending in one of the three recognized low-resolution suffixes
comes out ending in `'-t500x500.jpg'`. -/
theorem upgrade_ends_with (s : List Char)
    (h : sufLarge <:+ s ∨ sufCrop <:+ s ∨ sufT300 <:+ s) :
    sufT500 <:+
      pyReplace sufT300 sufT500 (pyReplace sufCrop sufT500 (pyReplace sufLarge sufT500 s)) := by
  have hL : sufLarge ≠ [] := by decide
  have hC : sufCrop ≠ [] := by decide
  have hT : sufT300 ≠ [] := by decide
  rcases h with h | h | h
  · obtain ⟨u, rfl⟩ := h
    obtain ⟨w1, hw1⟩ := pyReplace_ends_with sufLarge sufT500 hL borderFree_sufLarge u
    rw [hw1]
    obtain ⟨w2, hw2⟩ := pyReplace_preserves_suffix sufCrop sufT500 sufT500 hC
      cannotTouch_crop_t500.1 cannotTouch_crop_t500.2 w1
    rw [hw2]
    obtain ⟨w3, hw3⟩ := pyReplace_preserves_suffix sufT300 sufT500 sufT500 hT
      cannotTouch_t300_t500.1 cannotTouch_t300_t500.2 w2
    rw [hw3]
    exact ⟨w3, rfl⟩
  · obtain ⟨u, rfl⟩ := h
    obtain ⟨w1, hw1⟩ := pyReplace_preserves_suffix sufLarge sufT500 sufCrop hL
      cannotTouch_large_crop.1 cannotTouch_large_crop.2 u
    rw [hw1]
    obtain ⟨w2, hw2⟩ := pyReplace_ends_with sufCrop sufT500 hC borderFree_sufCrop w1
    rw [hw2]
    obtain ⟨w3, hw3⟩ := pyReplace_preserves_suffix sufT300 sufT500 sufT500 hT
      cannotTouch_t300_t500.1 cannotTouch_t300_t500.2 w2
    rw [hw3]
    exact ⟨w3, rfl⟩
  · obtain ⟨u, rfl⟩ := h
    obtain ⟨w1, hw1⟩ := pyReplace_preserves_suffix sufLarge sufT500 sufT300 hL
      cannotTouch_large_t300.1 cannotTouch_large_t300.2 u
    rw [hw1]
    obtain ⟨w2, hw2⟩ := pyReplace_preserves_suffix sufCrop sufT500 sufT300 hC
      cannotTouch_crop_t300.1 cannotTouch_crop_t300.2 w1
    rw [hw2]
    obtain ⟨w3, hw3⟩ := pyReplace_ends_with sufT300 sufT500 hT borderFree_sufT300 w2
    rw [hw3]
    exact ⟨w3, rfl⟩

/-- The chain of three replaces keeps a nonempty string nonempty. -/
theorem upgrade_ne_nil (s : List Char) (hs : s ≠ []) :
    pyReplace sufT300 sufT500 (pyReplace sufCrop sufT500 (pyReplace sufLarge sufT500 s)) ≠ [] := by
  have h5 : sufT500 ≠ [] := by decide
  exact pyReplace_ne_nil _ _ _ h5 (pyReplace_ne_nil _ _ _ h5 (pyReplace_ne_nil _ _ _ h5 hs))

/-! ### Characterizations of the two `format_track_data` loop bodies -/

/-- JSON-target artwork when the raw URL is a nonempty string other than
the placeholder: the three replaces run and their (nonempty) result is
kept. -/
theorem format_track_json_artwork_upgraded (t : RawTrack) (s : List Char)
    (ha : t.artwork_url = some (some s)) (hne : s ≠ []) (hj : s ≠ phJson) :
    (format_track_json t).artwork_url =
      pyReplace sufT300 sufT500 (pyReplace sufCrop sufT500 (pyReplace sufLarge sufT500 s)) := by
  have hnn := upgrade_ne_nil s hne
  obtain ⟨i, ti, cr, du, pe, art, st, de, sm, sh⟩ := t
  simp only at ha
  subst ha
  simp only [format_track_json, Option.getD_some]
  rw [if_pos ⟨hne, hj⟩]
  simp only [List.isEmpty_iff]
  rw [if_neg hnn]

/-- HTML-target artwork when the raw URL is a nonempty string other than
the placeholder. -/
theorem format_track_html_artwork_upgraded (t : RawTrack) (s : List Char)
    (ha : t.artwork_url = some (some s)) (hne : s ≠ []) (hh : s ≠ phHtml) :
    (format_track_html t).artwork_url =
      pyReplace sufT300 sufT500 (pyReplace sufCrop sufT500 (pyReplace sufLarge sufT500 s)) := by
  have hnn := upgrade_ne_nil s hne
  obtain ⟨i, ti, cr, du, pe, art, st, de, sm, sh⟩ := t
  simp only at ha
  subst ha
  simp only [format_track_html, Option.getD_some]
  rw [if_pos ⟨hne, hh⟩]
  simp only [List.isEmpty_iff]
  rw [if_neg hnn]

/-- JSON-target artwork when the raw URL is absent, null, or the empty
string: the placeholder is substituted. -/
theorem format_track_json_artwork_default (t : RawTrack)
    (ha : t.artwork_url = none ∨ t.artwork_url = some none ∨ t.artwork_url = some (some [])) :
    (format_track_json t).artwork_url = phJson := by
  obtain ⟨i, ti, cr, du, pe, art, st, de, sm, sh⟩ := t
  simp only at ha
  rcases ha with rfl | rfl | rfl <;> simp [format_track_json, phJson]

/-- HTML-target artwork when the raw URL is absent, null, or the empty
string. -/
theorem format_track_html_artwork_default (t : RawTrack)
    (ha : t.artwork_url = none ∨ t.artwork_url = some none ∨ t.artwork_url = some (some [])) :
    (format_track_html t).artwork_url = phHtml := by
  obtain ⟨i, ti, cr, du, pe, art, st, de, sm, sh⟩ := t
  simp only at ha
  rcases ha with rfl | rfl | rfl <;> simp [format_track_html, phHtml]

/-- The normalized artwork URL is never the empty (or null) string. -/
theorem format_track_json_artwork_ne_nil (t : RawTrack) :
    (format_track_json t).artwork_url ≠ [] := by
  obtain ⟨i, ti, cr, du, pe, art, st, de, sm, sh⟩ := t
  simp only [format_track_json]
  rcases art with _ | v
  · simp [phJson]
  · rcases v with _ | s
    · simp [phJson]
    · simp only [Option.getD_some]
      split
      · simp [phJson]
      · split
        · simp [phJson]
        · next h => intro hc; rw [hc] at h; simp at h

/-- Same for the HTML target. -/
theorem format_track_html_artwork_ne_nil (t : RawTrack) :
    (format_track_html t).artwork_url ≠ [] := by
  obtain ⟨i, ti, cr, du, pe, art, st, de, sm, sh⟩ := t
  simp only [format_track_html]
  rcases art with _ | v
  · simp [phHtml]
  · rcases v with _ | s
    · simp [phHtml]
    · simp only [Option.getD_some]
      split
      · simp [phHtml]
      · split
        · simp [phHtml]
        · next h => intro hc; rw [hc] at h; simp at h

/-- JSON-target description for a present string-valued raw description. -/
theorem format_track_json_description (t : RawTrack) (d : List Char)
    (hd : t.description = some (some d)) :
    (format_track_json t).description =
      if d.isEmpty then [] else d.take 200 ++ ("...").data := by
  obtain ⟨i, ti, cr, du, pe, art, st, de, sm, sh⟩ := t
  simp only at hd
  subst hd
  rfl

/-- HTML-target description for a present string-valued raw description:
truncation happens before escaping. -/
theorem format_track_html_description (t : RawTrack) (d : List Char)
    (hd : t.description = some (some d)) :
    (format_track_html t).description =
      htmlEscape (if d.isEmpty then [] else d.take 200 ++ ("...").data) := by
  obtain ⟨i, ti, cr, du, pe, art, st, de, sm, sh⟩ := t
  simp only at hd
  subst hd
  rfl

/-- The normalized `stream_url` is exactly `track.get('stream_url', '#')`. -/
theorem format_track_json_stream (t : RawTrack) :
    (format_track_json t).stream_url = t.stream_url.getD (some (("#").data)) := rfl

/-- Same for the HTML target. -/
theorem format_track_html_stream (t : RawTrack) :
    (format_track_html t).stream_url = t.stream_url.getD (some (("#").data)) := rfl

theorem format_track_json_id (t : RawTrack) : (format_track_json t).id = t.id := rfl

theorem format_track_json_title (t : RawTrack) : (format_track_json t).title = t.title := rfl

theorem format_track_json_created_at (t : RawTrack) :
    (format_track_json t).created_at = t.created_at := rfl

theorem format_track_json_duration (t : RawTrack) :
    (format_track_json t).duration = t.duration := rfl

theorem format_track_json_permalink (t : RawTrack) :
    (format_track_json t).permalink_url = t.permalink_url := rfl

theorem format_track_html_id (t : RawTrack) : (format_track_html t).id = t.id := rfl

theorem format_track_html_title (t : RawTrack) :
    (format_track_html t).title = htmlEscape t.title := rfl

theorem format_track_html_created_at (t : RawTrack) :
    (format_track_html t).created_at = t.created_at := rfl

theorem format_track_html_duration (t : RawTrack) :
    (format_track_html t).duration = t.duration := rfl

theorem format_track_html_permalink (t : RawTrack) :
    (format_track_html t).permalink_url = t.permalink_url := rfl

/-- `htmlEscape` distributes over concatenation. -/
theorem htmlEscape_append (a b : List Char) :
    htmlEscape (a ++ b) = htmlEscape a ++ htmlEscape b := by
  simp [htmlEscape]

/-- The ellipsis is untouched by HTML escaping. -/
theorem htmlEscape_dots : htmlEscape (("...").data) = ("...").data := by decide

/-- The list-level normalizers are the elementwise maps. -/
theorem format_track_data_json_eq_map (ts : List RawTrack) :
    format_track_data_json ts = ts.map format_track_json := by
  induction ts with
  | nil => rfl
  | cons t ts ih => simp [format_track_data_json, ih]

theorem format_track_data_html_eq_map (ts : List RawTrack) :
    format_track_data_html ts = ts.map format_track_html := by
  induction ts with
  | nil => rfl
  | cons t ts ih => simp [format_track_data_html, ih]

/-- The three replaces leave the JSON-target placeholder unchanged. -/
theorem upgrade_phJson :
    pyReplace sufT300 sufT500 (pyReplace sufCrop sufT500 (pyReplace sufLarge sufT500 phJson))
      = phJson := by decide

/-- The three replaces leave the HTML-target placeholder unchanged. -/
theorem upgrade_phHtml :
    pyReplace sufT300 sufT500 (pyReplace sufCrop sufT500 (pyReplace sufLarge sufT500 phHtml))
      = phHtml := by decide

/-- JSON-target artwork when the raw URL is exactly the JSON placeholder:
the guard skips the replaces and the value is kept. -/
theorem format_track_json_artwork_ph (t : RawTrack)
    (ha : t.artwork_url = some (some phJson)) :
    (format_track_json t).artwork_url = phJson := by
  obtain ⟨i, ti, cr, du, pe, art, st, de, sm, sh⟩ := t
  simp only at ha
  subst ha
  simp [format_track_json, phJson]

/-- HTML-target artwork when the raw URL is exactly the HTML placeholder. -/
theorem format_track_html_artwork_ph (t : RawTrack)
    (ha : t.artwork_url = some (some phHtml)) :
    (format_track_html t).artwork_url = phHtml := by
  obtain ⟨i, ti, cr, du, pe, art, st, de, sm, sh⟩ := t
  simp only at ha
  subst ha
  simp [format_track_html, phHtml]

/-- For every truthy raw artwork URL the two output targets agree on the
normalized artwork URL (even when the value happens to equal one of the
two placeholders). -/
theorem format_artwork_mode_equal (t : RawTrack) (s : List Char)
    (ha : t.artwork_url = some (some s)) (hne : s ≠ []) :
    (format_track_html t).artwork_url = (format_track_json t).artwork_url := by
  by_cases hj : s = phJson
  · subst hj
    rw [format_track_json_artwork_ph t ha,
      format_track_html_artwork_upgraded t phJson ha (by decide) (by decide),
      upgrade_phJson]
  · by_cases hh : s = phHtml
    · subst hh
      rw [format_track_html_artwork_ph t ha,
        format_track_json_artwork_upgraded t phHtml ha (by decide) (by decide),
        upgrade_phHtml]
    · rw [format_track_json_artwork_upgraded t s ha hne hj,
        format_track_html_artwork_upgraded t s ha hne hh]

/-- The HTML-target description is the HTML escape of the JSON-target
description, for every shape of the raw `description` field. -/
theorem format_description_mode_escape (t : RawTrack) :
    (format_track_html t).description = htmlEscape (format_track_json t).description := by
  obtain ⟨i, ti, cr, du, pe, art, st, de, sm, sh⟩ := t
  rcases de with _ | v
  · rfl
  · rcases v with _ | d <;> rfl

/-! ### Claim theorems -/

/-- C3: if no track has a truthy `streamable` field but some track has
`sharing == "public"`, the filter stage returns exactly the sublist of
public tracks — the second tier wins and the raw-10 debug fallback is
not taken. -/
theorem c3_filter_public_tier (tracks : List RawTrack)
    (h1 : ∀ t ∈ tracks, isStreamable t = false)
    (h2 : ∃ t ∈ tracks, isPublic t = true) :
    filter_tracks tracks = tracks.filter isPublic := by
  have hs : tracks.filter isStreamable = [] := by
    rw [List.filter_eq_nil_iff]
    intro a ha
    simp [h1 a ha]
  have hp : tracks.filter isPublic ≠ [] := by
    obtain ⟨t, ht, hpt⟩ := h2
    exact List.ne_nil_of_mem (List.mem_filter.mpr ⟨ht, hpt⟩)
  simp only [filter_tracks, hs, List.isEmpty_nil, if_true]
  rw [if_neg]
  simp [List.isEmpty_iff, hp]

/-- Witness for C3 at a concrete two-track list: only the public track
survives. -/
theorem c3_witness :
    filter_tracks
        [{ id := 1, title := [], created_at := [], duration := 0, permalink_url := [],
           sharing := some (some (("public").data)) },
         { id := 2, title := [], created_at := [], duration := 0, permalink_url := [],
           sharing := some (some (("private").data)) }] =
      List.filter isPublic
        [{ id := 1, title := [], created_at := [], duration := 0, permalink_url := [],
           sharing := some (some (("public").data)) },
         { id := 2, title := [], created_at := [], duration := 0, permalink_url := [],
           sharing := some (some (("private").data)) }] :=
  c3_filter_public_tier _ (by decide)
    ⟨{ id := 1, title := [], created_at := [], duration := 0, permalink_url := [],
       sharing := some (some (("public").data)) }, by decide⟩

/-- C8: if no track has a truthy `streamable` field and no track has
`sharing == "public"`, the filter stage returns the first 10 raw tracks
in order (all of them when there are at most 10). -/
theorem c8_debug_fallback (tracks : List RawTrack)
    (h1 : ∀ t ∈ tracks, isStreamable t = false)
    (h2 : ∀ t ∈ tracks, isPublic t = false) :
    filter_tracks tracks = tracks.take 10 ∧
    (tracks.length ≤ 10 → filter_tracks tracks = tracks) := by
  have hs : tracks.filter isStreamable = [] := by
    rw [List.filter_eq_nil_iff]
    intro a ha
    simp [h1 a ha]
  have hp : tracks.filter isPublic = [] := by
    rw [List.filter_eq_nil_iff]
    intro a ha
    simp [h2 a ha]
  have hmain : filter_tracks tracks = tracks.take 10 := by
    simp [filter_tracks, hs, hp]
  exact ⟨hmain, fun hlen => by rw [hmain, List.take_of_length_le hlen]⟩

/-- Witness for C8 at a concrete one-track list with a private,
unstreamable track: the raw slice comes back whole. -/
theorem c8_witness :
    filter_tracks
        [{ id := 7, title := [], created_at := [], duration := 0, permalink_url := [],
           streamable := some (JVal.bool false),
           sharing := some (some (("private").data)) }] =
      [{ id := 7, title := [], created_at := [], duration := 0, permalink_url := [],
         streamable := some (JVal.bool false),
         sharing := some (some (("private").data)) }] :=
  (c8_debug_fallback _ (by decide) (by decide)).2 (by decide)

/-- C10: both normalizers preserve the list length and order, and copy
`id`, `created_at`, `duration` and `permalink_url` through unchanged. -/
theorem c10_frame (ts : List RawTrack) :
    (format_track_data_json ts).length = ts.length ∧
    (format_track_data_html ts).length = ts.length ∧
    (∀ (i : Nat) (h1 : i < (format_track_data_json ts).length) (h2 : i < ts.length),
      ((format_track_data_json ts).get ⟨i, h1⟩).id = (ts.get ⟨i, h2⟩).id ∧
      ((format_track_data_json ts).get ⟨i, h1⟩).created_at = (ts.get ⟨i, h2⟩).created_at ∧
      ((format_track_data_json ts).get ⟨i, h1⟩).duration = (ts.get ⟨i, h2⟩).duration ∧
      ((format_track_data_json ts).get ⟨i, h1⟩).permalink_url = (ts.get ⟨i, h2⟩).permalink_url) ∧
    (∀ (i : Nat) (h1 : i < (format_track_data_html ts).length) (h2 : i < ts.length),
      ((format_track_data_html ts).get ⟨i, h1⟩).id = (ts.get ⟨i, h2⟩).id ∧
      ((format_track_data_html ts).get ⟨i, h1⟩).created_at = (ts.get ⟨i, h2⟩).created_at ∧
      ((format_track_data_html ts).get ⟨i, h1⟩).duration = (ts.get ⟨i, h2⟩).duration ∧
      ((format_track_data_html ts).get ⟨i, h1⟩).permalink_url = (ts.get ⟨i, h2⟩).permalink_url) := by
  refine ⟨?_, ?_, ?_, ?_⟩
  · rw [format_track_data_json_eq_map, List.length_map]
  · rw [format_track_data_html_eq_map, List.length_map]
  · intro i h1 h2
    simp only [List.get_eq_getElem, format_track_data_json_eq_map, List.getElem_map]
    exact ⟨rfl, rfl, rfl, rfl⟩
  · intro i h1 h2
    simp only [List.get_eq_getElem, format_track_data_html_eq_map, List.getElem_map]
    exact ⟨rfl, rfl, rfl, rfl⟩

/-- Witness for C10 at a concrete singleton list. -/
theorem c10_witness :
    ((format_track_data_json
        [{ id := 9, title := ("T").data, created_at := ("2025").data, duration := 5,
           permalink_url := ("P").data }]).length = 1) ∧
    ((format_track_data_json
        [{ id := 9, title := ("T").data, created_at := ("2025").data, duration := 5,
           permalink_url := ("P").data }]).get ⟨0, by decide⟩).id = 9 := by
  refine ⟨(c10_frame _).1, ?_⟩
  have h := (c10_frame
    [{ id := 9, title := ("T").data, created_at := ("2025").data, duration := 5,
       permalink_url := ("P").data }]).2.2.1 0 (by decide) (by decide)
  exact h.1.trans rfl

/-- C1 counterexample: a raw track carrying an explicit null `stream_url`
normalizes to a null `stream_url` (Python `None`), not to the default
`'#'` — so the claimed non-null invariant fails for `stream_url`. -/
theorem c1_counterexample :
    (format_track_json
      { id := 1, title := [], created_at := [], duration := 0,
        permalink_url := [], stream_url := some none }).stream_url = none := rfl

/-- C1 (amended): every normalized track has a non-null, non-empty
`artwork_url` (the placeholder is substituted when the raw value is
absent, null or empty, in either output mode); `stream_url` defaults to
`'#'` only when the key is absent — a present value, including an
explicit null, is passed through unchanged. -/
theorem c1_amended (t : RawTrack) :
    ((t.artwork_url = none ∨ t.artwork_url = some none ∨ t.artwork_url = some (some [])) →
      (format_track_json t).artwork_url = phJson ∧
      (format_track_html t).artwork_url = phHtml) ∧
    ((format_track_json t).artwork_url ≠ [] ∧ (format_track_html t).artwork_url ≠ []) ∧
    (t.stream_url = none →
      (format_track_json t).stream_url = some (("#").data) ∧
      (format_track_html t).stream_url = some (("#").data)) ∧
    (∀ v, t.stream_url = some v →
      (format_track_json t).stream_url = v ∧ (format_track_html t).stream_url = v) := by
  refine ⟨?_, ⟨format_track_json_artwork_ne_nil t, format_track_html_artwork_ne_nil t⟩, ?_, ?_⟩
  · intro h
    exact ⟨format_track_json_artwork_default t h, format_track_html_artwork_default t h⟩
  · intro h
    rw [format_track_json_stream, format_track_html_stream, h]
    exact ⟨rfl, rfl⟩
  · intro v h
    rw [format_track_json_stream, format_track_html_stream, h]
    exact ⟨rfl, rfl⟩

/-- Witness for the amended C1 at a concrete track with a null artwork
URL and no `stream_url` key. -/
theorem c1_amended_witness :
    (format_track_json
      { id := 1, title := [], created_at := [], duration := 0,
        permalink_url := [], artwork_url := some none }).artwork_url = phJson ∧
    (format_track_json
      { id := 1, title := [], created_at := [], duration := 0,
        permalink_url := [], artwork_url := some none }).stream_url = some (("#").data) :=
  ⟨((c1_amended _).1 (Or.inr (Or.inl rfl))).1, ((c1_amended _).2.2.1 rfl).1⟩

set_option maxRecDepth 4000 in
/-- C2 counterexample: in the HTML-embed mode the description is escaped
after truncation, so a 201-character description starting with `'&'`
normalizes to 207 characters — the claimed bound of 203 fails. -/
theorem c2_counterexample :
    ¬ ((format_track_html
      { id := 0, title := [], created_at := [], duration := 0, permalink_url := [],
        description := some (some (('&') :: List.replicate 200 ('a'))) }).description.length
      ≤ 203) := by
  decide

/-- C2 (amended): a description longer than 200 characters is truncated
to its first 200 characters plus `'...'`; the JSON-file-target output
therefore has length ≤ 203 and ends in `'...'`.  The HTML-embed target
escapes after truncating, so its output still ends in `'...'` but its
length may exceed 203.  An empty description stays exactly empty in both
modes. -/
theorem c2_amended (t : RawTrack) (d : List Char) (hd : t.description = some (some d)) :
    (200 < d.length →
      (format_track_json t).description.length ≤ 203 ∧
      ("...").data <:+ (format_track_json t).description ∧
      ("...").data <:+ (format_track_html t).description) ∧
    (d = [] →
      (format_track_json t).description = [] ∧ (format_track_html t).description = []) := by
  constructor
  · intro hlen
    have hne : ¬ (d.isEmpty = true) := by
      intro h
      rw [List.isEmpty_iff] at h
      subst h
      simp at hlen
    rw [format_track_json_description t d hd, format_track_html_description t d hd,
      if_neg hne]
    refine ⟨?_, ⟨d.take 200, rfl⟩, ?_⟩
    · simp only [List.length_append, List.length_take, List.length_cons, List.length_nil]
      omega
    · rw [htmlEscape_append, htmlEscape_dots]
      exact ⟨htmlEscape (d.take 200), rfl⟩
  · intro h
    subst h
    rw [format_track_json_description t [] hd, format_track_html_description t [] hd]
    exact ⟨rfl, rfl⟩

/-- Witness for the amended C2 at a concrete 201-character description. -/
theorem c2_amended_witness :
    (format_track_json
      { id := 1, title := [], created_at := [], duration := 0, permalink_url := [],
        description := some (some (List.replicate 201 ('a'))) }).description.length ≤ 203 :=
  ((c2_amended _ _ rfl).1 (by rw [List.length_replicate]; omega)).1

/-- C4: the two output targets produce the same normalized record except
that the HTML-embed target HTML-escapes `title` and `description`, and
the substituted placeholder path is `'/moafunk.png'` (JSON-file target)
versus `'./moafunk.png'` (HTML-embed target); `id`, `created_at`,
`duration`, `permalink_url`, `stream_url` and every non-placeholder
(truthy) artwork URL agree between the targets. -/
theorem c4_mode_equivalence (t : RawTrack) :
    (format_track_html t).id = (format_track_json t).id ∧
    (format_track_html t).created_at = (format_track_json t).created_at ∧
    (format_track_html t).duration = (format_track_json t).duration ∧
    (format_track_html t).permalink_url = (format_track_json t).permalink_url ∧
    (format_track_html t).stream_url = (format_track_json t).stream_url ∧
    (format_track_html t).title = htmlEscape (format_track_json t).title ∧
    (format_track_html t).description = htmlEscape (format_track_json t).description ∧
    (∀ s, t.artwork_url = some (some s) → s ≠ [] →
      (format_track_html t).artwork_url = (format_track_json t).artwork_url) ∧
    ((t.artwork_url = none ∨ t.artwork_url = some none ∨ t.artwork_url = some (some [])) →
      (format_track_json t).artwork_url = phJson ∧
      (format_track_html t).artwork_url = phHtml) := by
  refine ⟨rfl, rfl, rfl, rfl, ?_, rfl, format_description_mode_escape t, ?_, ?_⟩
  · rw [format_track_html_stream, format_track_json_stream]
  · intro s ha hne
    exact format_artwork_mode_equal t s ha hne
  · intro h
    exact ⟨format_track_json_artwork_default t h, format_track_html_artwork_default t h⟩

/-- Witness for C4 at a concrete track whose artwork URL is a truthy
non-placeholder string: both targets output the same artwork URL. -/
theorem c4_witness :
    (format_track_html
      { id := 3, title := ("Ti").data, created_at := [], duration := 0, permalink_url := [],
        artwork_url := some (some (("x-large.jpg").data)) }).artwork_url =
    (format_track_json
      { id := 3, title := ("Ti").data, created_at := [], duration := 0, permalink_url := [],
        artwork_url := some (some (("x-large.jpg").data)) }).artwork_url :=
  (c4_mode_equivalence _).2.2.2.2.2.2.2.1 _ rfl (by decide)

/-- C5: a truthy, non-placeholder raw artwork URL ending in one of the
three recognized low-resolution suffixes normalizes, in either output
mode, to a URL ending in `'-t500x500.jpg'` (the rewrite being the three
successive literal replace-all passes embodied in the definitions). -/
theorem c5_artwork_suffix_upgrade (t : RawTrack) (s : List Char)
    (ha : t.artwork_url = some (some s)) (hne : s ≠ [])
    (hj : s ≠ phJson) (hh : s ≠ phHtml)
    (hsuf : sufLarge <:+ s ∨ sufCrop <:+ s ∨ sufT300 <:+ s) :
    sufT500 <:+ (format_track_json t).artwork_url ∧
    sufT500 <:+ (format_track_html t).artwork_url := by
  rw [format_track_json_artwork_upgraded t s ha hne hj,
    format_track_html_artwork_upgraded t s ha hne hh]
  exact ⟨upgrade_ends_with s hsuf, upgrade_ends_with s hsuf⟩

/-- Witness for C5 at a concrete `-large.jpg` artwork URL. -/
theorem c5_witness :
    sufT500 <:+ (format_track_json
      { id := 1, title := [], created_at := [], duration := 0, permalink_url := [],
        artwork_url := some (some (("x-large.jpg").data)) }).artwork_url :=
  (c5_artwork_suffix_upgrade _ _ rfl (by decide) (by decide) (by decide)
    (Or.inl (by decide))).1

/-- C6 counterexample: for a concrete failing token response the raised
message carries the status code but not the response body — the body
`'BODY'` is not a substring of the error message. -/
theorem c6_counterexample :
    get_access_token { status_code := 500, text := ("BODY").data, access_token := none } =
      Except.error (("Failed to get access token: 500").data) ∧
    ¬ (("BODY").data <:+: ("Failed to get access token: 500").data) :=
  ⟨rfl, by decide⟩

/-- C6 (amended): `get_access_token` raises exactly when the token
endpoint status is not 200, and the raised message carries the status
code (the response body is printed to the log, not carried in the
error).  On status 200 it returns the JSON body's `access_token` value;
an absent or null field yields a no-token value, not an error. -/
theorem c6_amended (resp : TokenResponse) :
    (resp.status_code ≠ 200 →
      get_access_token resp =
        Except.error ((("Failed to get access token: ").data
          ++ (Nat.repr resp.status_code).data))) ∧
    (resp.status_code = 200 →
      get_access_token resp = Except.ok (resp.access_token.getD none)) ∧
    (resp.status_code = 200 → (resp.access_token = none ∨ resp.access_token = some none) →
      get_access_token resp = Except.ok none) := by
  obtain ⟨sc, tx, tok⟩ := resp
  refine ⟨?_, ?_, ?_⟩
  · intro h
    simp only at h
    simp [get_access_token, h]
  · intro h
    simp only at h
    simp [get_access_token, h]
  · intro h hv
    simp only at h hv
    rcases hv with rfl | rfl <;> simp [get_access_token, h]

/-- Witness for the amended C6 at a concrete 404 response. -/
theorem c6_amended_witness :
    get_access_token { status_code := 404, text := ("nf").data, access_token := none } =
      Except.error ((("Failed to get access token: ").data ++ (Nat.repr 404).data)) :=
  (c6_amended _).1 (by decide)

/-- C7: a non-200 resolve response never raises: the tracks URL is then
built from the raw username (header-auth or query-parameter form,
depending on the token), and when the token stage succeeded and the
tracks GET returns 200 the pipeline returns the filtered body; a failing
token stage, by contrast, still raises. -/
theorem c7_resolver_failure_recovered (tokenResp : TokenResponse)
    (resolve : ResolveResponse) (client_id username : List Char)
    (tracksGet : List Char → Nat × List RawTrack)
    (hres : resolve.status_code ≠ 200) :
    (∀ access_token,
      tracks_url access_token client_id username resolve =
        (if tokenTruthy access_token then
          ("https://api.soundcloud.com/users/").data ++ username ++ ("/tracks?limit=50").data
        else
          ("https://api.soundcloud.com/users/").data ++ username
            ++ ("/tracks?client_id=").data ++ client_id ++ ("&limit=50").data)) ∧
    (∀ access_token, get_access_token tokenResp = Except.ok access_token →
      (tracksGet (tracks_url access_token client_id username resolve)).1 = 200 →
      fetch_soundcloud_tracks tokenResp resolve client_id username tracksGet =
        Except.ok (filter_tracks
          (tracksGet (tracks_url access_token client_id username resolve)).2)) ∧
    (tokenResp.status_code ≠ 200 →
      fetch_soundcloud_tracks tokenResp resolve client_id username tracksGet =
        Except.error ((("Failed to get access token: ").data
          ++ (Nat.repr tokenResp.status_code).data))) := by
  refine ⟨?_, ?_, ?_⟩
  · intro tok
    simp [tracks_url, hres]
  · intro tok htok h200
    simp [fetch_soundcloud_tracks, htok, h200]
  · intro hbad
    simp [fetch_soundcloud_tracks, get_access_token, hbad]

/-- Witness for C7: concrete 404 resolve response, successful token and
tracks stages — the pipeline succeeds. -/
theorem c7_witness :
    fetch_soundcloud_tracks
      { status_code := 200, text := [], access_token := some (some (("tok").data)) }
      { status_code := 404, id := none } (("cid").data) (("user").data)
      (fun _ => (200, [])) = Except.ok (filter_tracks []) :=
  (c7_resolver_failure_recovered _ _ _ _ _ (by decide)).2.1
    (some (("tok").data)) rfl rfl

/-- C9: a 200 resolve response whose body has no usable `id` (absent or
null) does not fall back to the username: the tracks URL interpolates the
null id and contains the path segment `users/None/tracks`. -/
theorem c9_users_none_tracks (access_token : Option (List Char))
    (client_id username : List Char) (resolve : ResolveResponse)
    (hres : resolve.status_code = 200)
    (hid : resolve.id = none ∨ resolve.id = some none) :
    ("users/None/tracks").data <:+: tracks_url access_token client_id username resolve := by
  have hgetD : resolve.id.getD none = none := by
    rcases hid with h | h <;> simp [h]
  simp only [tracks_url, hres, if_true, hgetD, pyStrOptInt]
  cases htok : tokenTruthy access_token
  · simp only [Bool.false_eq_true, if_false]
    have hpre : (("https://api.soundcloud.com/users/").data ++ ("None").data
        ++ ("/tracks?client_id=").data) <:+:
        (("https://api.soundcloud.com/users/").data ++ ("None").data
          ++ ("/tracks?client_id=").data ++ client_id ++ ("&limit=50").data) :=
      ⟨[], client_id ++ ("&limit=50").data, by simp [List.append_assoc]⟩
    exact List.IsInfix.trans (by decide) hpre
  · simp only [if_true]
    decide

/-- Witness for C9 at a concrete resolve response with a null id. -/
theorem c9_witness :
    ("users/None/tracks").data <:+:
      tracks_url none (("c").data) (("u").data) { status_code := 200, id := some none } :=
  c9_users_none_tracks none _ _ _ rfl (Or.inr rfl)

end Relisten
